import Mathlib

/-!
Shallow embedding of `src/ndk/src/media/media_codec.rs`, a Rust safety
wrapper around the Android NDK `AMediaFormat` / `AMediaCodec` C API.

The native library is external: every FFI call is modelled by passing its
return value (or an oracle function from the arguments the wrapper supplies
to the returned value) as an explicit parameter, and each wrapper function
additionally returns the exact arguments it handed to the native call, so
that argument-forwarding claims can be stated.  Rust panics (`unwrap`,
`expect`) are modelled by `Option`/`Except String`.  Machine integers are
`Int`/`Nat` with explicit two's-complement wrapping where the Rust code
performs an `as` cast.
-/

deriving instance DecidableEq for Except

namespace MediaCodecSpec

/-- `isize`/`ssize_t` lower bound on 64-bit Android (`-2^63`). -/
def isizeMin : Int := -(2 ^ 63)

/-- `isize`/`ssize_t` strict upper bound on 64-bit Android (`2^63`). -/
def isizeTop : Int := 2 ^ 63

/-- `i64::MAX`, the largest value `u128::try_into::<i64>()` accepts. -/
def i64Max : Int := 2 ^ 63 - 1

/-- Truncating cast of a 64-bit signed value to `i32` (Rust `as i32`):
two's-complement wrap into `[-2^31, 2^31)`. -/
def wrap32 (n : Int) : Int := (n + 2 ^ 31) % 2 ^ 32 - 2 ^ 31

/-- Truncating cast of a `usize` (`u64` value) to `i64` (Rust `as i64` /
`as ffi::off_t` on LP64): values below `2^63` unchanged, the upper half
wraps to negatives. -/
def asInt64 (n : Nat) : Int := if n < 2 ^ 63 then (n : Int) else (n : Int) - 2 ^ 64

/-- Modelled from the spec: sentinel return code of the vendor C API for
"try again later" (`AMEDIACODEC_INFO_TRY_AGAIN_LATER`), declared in the
`ndk-sys` bindings crate which is outside `src/`; value from the NDK header
`NdkMediaCodec.h`. -/
def AMEDIACODEC_INFO_TRY_AGAIN_LATER : Int := -1

/-- Modelled from the spec: sentinel return code of the vendor C API for
"output format changed" (`AMEDIACODEC_INFO_OUTPUT_FORMAT_CHANGED`), declared
in the `ndk-sys` bindings crate which is outside `src/`; value from the NDK
header `NdkMediaCodec.h`. -/
def AMEDIACODEC_INFO_OUTPUT_FORMAT_CHANGED : Int := -2

/-- Modelled from the spec: sentinel return code of the vendor C API for
"output buffers changed" (`AMEDIACODEC_INFO_OUTPUT_BUFFERS_CHANGED`),
declared in the `ndk-sys` bindings crate which is outside `src/`; value from
the NDK header `NdkMediaCodec.h`. -/
def AMEDIACODEC_INFO_OUTPUT_BUFFERS_CHANGED : Int := -3

/-- Modelled from the spec: the encoder flag of `AMediaCodec_configure`
(`AMEDIACODEC_CONFIGURE_FLAG_ENCODE`), declared in the `ndk-sys` bindings
crate which is outside `src/`; value from the NDK header `NdkMediaCodec.h`.
The Rust code casts the `i32` constant `1` to `u32`, still `1`. -/
def AMEDIACODEC_CONFIGURE_FLAG_ENCODE : Nat := 1

/-- Modelled from the spec: `MediaError::from_status` of
`src/ndk/src/media_error.rs` (not under `src/`): "Errors are exclusively the
foreign library's status codes, translated to a local error kind" — `Ok(())`
exactly on the success status `AMEDIA_OK = 0`, `Err` carrying the status
code otherwise.  The error payload is the status code itself. -/
def MediaError.from_status (status : Int) : Except Int Unit :=
  if status = 0 then .ok () else .error status

/-- Rust `Result::unwrap_err`: the error payload, or `none` for the panic on
an `Ok` value. -/
def unwrapErr {ε α : Type} : Except ε α → Option ε
  | .error e => some e
  | .ok _ => none

/-- `std::time::Duration`: seconds (`u64`) and a sub-second nanosecond part
(`< 10^9`). -/
structure Duration where
  secs : Nat
  nanos : Nat
  secs_lt : secs < 2 ^ 64
  nanos_lt : nanos < 1000000000

/-- `Duration::as_micros`: the whole number of microseconds. -/
def Duration.as_micros (d : Duration) : Nat :=
  d.secs * 1000000 + d.nanos / 1000

/-- The timeout argument both dequeue functions build:
`timeout.as_micros().try_into().expect("Supplied timeout is too large")`.
`try_into` from `u128` to the native `i64` timeout succeeds exactly when the
microsecond count is at most `i64::MAX`; otherwise `expect` panics with the
given message (modelled as `Except.error` of the message). -/
def timeout_arg (timeout : Duration) : Except String Int :=
  if (timeout.as_micros : Int) ≤ i64Max then .ok (timeout.as_micros : Int)
  else .error "Supplied timeout is too large"

/-- `InputBuffer`: the wrapper around a dequeued input slot; only the index
matters for the embedded operations (the codec back-reference is the handle
identity, irrelevant to the claims). -/
structure InputBuffer where
  index : Nat
deriving DecidableEq, Repr

/-- `ffi::AMediaCodecBufferInfo`: `offset`/`size` are `i32`, `flags` is
`u32`, `presentationTimeUs` is `i64`; carried through untouched. -/
structure AMediaCodecBufferInfo where
  offset : Int
  size : Int
  flags : Nat
  presentationTimeUs : Int
deriving DecidableEq, Repr

/-- `OutputBuffer`: a dequeued output slot, its index and buffer info. -/
structure OutputBuffer where
  index : Nat
  info : AMediaCodecBufferInfo
deriving DecidableEq, Repr

/-- `DequeuedInputBufferResult` of the Rust source. -/
inductive DequeuedInputBufferResult where
  | Buffer (b : InputBuffer)
  | TryAgainLater
deriving DecidableEq, Repr

/-- `DequeuedOutputBufferInfoResult` of the Rust source. -/
inductive DequeuedOutputBufferInfoResult where
  | Buffer (b : OutputBuffer)
  | TryAgainLater
  | OutputFormatChanged
  | OutputBuffersChanged
deriving DecidableEq, Repr

/-- The result-translation cascade of `MediaCodec::dequeue_input_buffer`
(lines 306-315): sentinel check, then non-negative check (the index is
`result as usize`), else
`Err(MediaError::from_status(ffi::media_status_t(result as _)).unwrap_err())`
where `result as _` truncates the `isize` to the `i32` inside
`media_status_t`.  `none` models the `unwrap_err` panic. -/
def dequeue_input_translate (result : Int) :
    Option (Except Int DequeuedInputBufferResult) :=
  if result = AMEDIACODEC_INFO_TRY_AGAIN_LATER then
    some (.ok .TryAgainLater)
  else if 0 ≤ result then
    some (.ok (.Buffer ⟨result.toNat⟩))
  else
    match unwrapErr (MediaError.from_status (wrap32 result)) with
    | some e => some (.error e)
    | none => none

/-- The result-translation cascade of `MediaCodec::dequeue_output_buffer`
(lines 335-349): the three sentinel checks in source order, then the
non-negative check (index `result as usize`, `info.assume_init()`), else the
same truncate-and-`unwrap_err` error path as the input variant. -/
def dequeue_output_translate (result : Int) (info : AMediaCodecBufferInfo) :
    Option (Except Int DequeuedOutputBufferInfoResult) :=
  if result = AMEDIACODEC_INFO_TRY_AGAIN_LATER then
    some (.ok .TryAgainLater)
  else if result = AMEDIACODEC_INFO_OUTPUT_FORMAT_CHANGED then
    some (.ok .OutputFormatChanged)
  else if result = AMEDIACODEC_INFO_OUTPUT_BUFFERS_CHANGED then
    some (.ok .OutputBuffersChanged)
  else if 0 ≤ result then
    some (.ok (.Buffer ⟨result.toNat, info⟩))
  else
    match unwrapErr (MediaError.from_status (wrap32 result)) with
    | some e => some (.error e)
    | none => none

/-- `MediaCodec::dequeue_input_buffer`: builds the timeout argument (panic
if too large, and then the native call never happens), calls
`AMediaCodec_dequeueInputBuffer` — modelled by the oracle `native` from the
passed timeout to the returned `ssize_t` — and translates the result.  The
returned pair records the timeout value actually passed to the native
call. -/
def dequeue_input_buffer (timeout : Duration) (native : Int → Int) :
    Except String (Int × Option (Except Int DequeuedInputBufferResult)) :=
  match timeout_arg timeout with
  | .error msg => .error msg
  | .ok t => .ok (t, dequeue_input_translate (native t))

/-- `MediaCodec::dequeue_output_buffer`: same timeout handling; the native
call also fills the `AMediaCodecBufferInfo` out-parameter, so the oracle
returns the `ssize_t` result together with the written info. -/
def dequeue_output_buffer (timeout : Duration)
    (native : Int → Int × AMediaCodecBufferInfo) :
    Except String (Int × Option (Except Int DequeuedOutputBufferInfoResult)) :=
  match timeout_arg timeout with
  | .error msg => .error msg
  | .ok t => .ok (t, dequeue_output_translate (native t).1 (native t).2)

/-- `CString::new` on a byte string: fails (and the `.unwrap()` in every
caller panics) exactly when the bytes contain an interior NUL byte;
otherwise the NUL-terminated C string holds exactly these bytes. -/
def CString.new (bytes : List Nat) : Option (List Nat) :=
  if bytes.contains 0 then none else some bytes

/-- `MediaCodecDirection` of the Rust source. -/
inductive MediaCodecDirection where
  | Decoder
  | Encoder
deriving DecidableEq, Repr

/-- A `NativeWindow` owns a `NonNull<ffi::ANativeWindow>`; pointers are
modelled as `Nat` with `0` for null, so the stored pointer is nonzero. -/
structure NativeWindow where
  ptr : Nat
  ptr_ne : ptr ≠ 0

/-- `MediaFormat` owns a `NonNull<ffi::AMediaFormat>` handle. -/
structure MediaFormat where
  inner : Nat
  inner_ne : inner ≠ 0

/-- `MediaCodec` owns a `NonNull<ffi::AMediaCodec>` handle. -/
structure MediaCodec where
  inner : Nat
  inner_ne : inner ≠ 0

/-- The argument tuple `MediaCodec::configure` passes to
`AMediaCodec_configure`: codec handle, format handle, surface pointer,
crypto pointer, flags. -/
structure ConfigureCall where
  codec : Nat
  format : Nat
  surface : Nat
  crypto : Nat
  flags : Nat
deriving DecidableEq, Repr

/-- `MediaCodec::configure` (lines 252-272): surface argument is
`surface.map_or(ptr::null_mut(), |s| s.ptr().as_ptr())`, crypto is null,
flags is `AMEDIACODEC_CONFIGURE_FLAG_ENCODE as u32` for an encoder and `0`
otherwise; the native status goes through `MediaError::from_status`.  The
native status is the oracle input; the call record is returned alongside
the translated result. -/
def configure (self : MediaCodec) (format : MediaFormat)
    (surface : Option NativeWindow) (direction : MediaCodecDirection)
    (status : Int) : ConfigureCall × Except Int Unit :=
  (⟨self.inner, format.inner,
    match surface with
    | none => 0
    | some s => s.ptr,
    0,
    if direction = MediaCodecDirection.Encoder then
      AMEDIACODEC_CONFIGURE_FLAG_ENCODE
    else 0⟩,
   MediaError.from_status status)

/-- `MediaCodec::release_output_buffer` (lines 403-407): passes the buffer's
index and the `render` boolean to `AMediaCodec_releaseOutputBuffer` and
translates the native status.  The Rust function takes the `OutputBuffer` by
value, consuming it. -/
def release_output_buffer (buffer : OutputBuffer) (render : Bool)
    (status : Int) : (Nat × Bool) × Except Int Unit :=
  ((buffer.index, render), MediaError.from_status status)

/-- `MediaCodec::release_output_buffer_at_time` (lines 409-418): passes the
buffer's index and the `i64` nanosecond timestamp to
`AMediaCodec_releaseOutputBufferAtTime` and translates the native status.
The Rust function takes the `OutputBuffer` by value, consuming it. -/
def release_output_buffer_at_time (buffer : OutputBuffer)
    (timestamp_ns : Int) (status : Int) : (Nat × Int) × Except Int Unit :=
  ((buffer.index, timestamp_ns), MediaError.from_status status)

/-- The argument tuple `MediaCodec::queue_input_buffer` passes to
`AMediaCodec_queueInputBuffer`: slot index, `off_t` offset, size, time,
flags. -/
structure QueueInputCall where
  idx : Nat
  offset : Int
  size : Nat
  time : Nat
  flags : Nat
deriving DecidableEq, Repr

/-- `MediaCodec::queue_input_buffer` (lines 382-401): forwards the dequeued
buffer's index, `offset as ffi::off_t` (a truncating `usize`-to-`i64` cast
on LP64), and size, time, flags as given, then translates the native
status. -/
def queue_input_buffer (buffer : InputBuffer) (offset : Nat) (size : Nat)
    (time : Nat) (flags : Nat) (status : Int) :
    QueueInputCall × Except Int Unit :=
  (⟨buffer.index, asInt64 offset, size, time, flags⟩,
   MediaError.from_status status)

/-- `MediaCodec::start` (lines 445-448): translates the status returned by
`AMediaCodec_start`, nothing else. -/
def start (status : Int) : Except Int Unit :=
  MediaError.from_status status

/-- `MediaCodec::stop` (lines 450-453): translates the status returned by
`AMediaCodec_stop`, nothing else. -/
def stop (status : Int) : Except Int Unit :=
  MediaError.from_status status

/-- `MediaCodec::flush` (lines 352-355): translates the status returned by
`AMediaCodec_flush`, nothing else. -/
def flush (status : Int) : Except Int Unit :=
  MediaError.from_status status

/-- `impl Drop for MediaFormat` (lines 207-212): calls
`AMediaFormat_delete(self.as_ptr())` and unwraps the status (panicking,
modelled by `none`, when the status is not success).  The first component
is the list of handles passed to `AMediaFormat_delete`, recording that the
delete call happens exactly once on the owned handle. -/
def MediaFormat.drop (self : MediaFormat) (status : Int) :
    List Nat × Option Unit :=
  ([self.inner],
   match MediaError.from_status status with
   | .ok u => some u
   | .error _ => none)

/-- `impl Drop for MediaCodec` (lines 456-461): calls
`AMediaCodec_delete(self.as_ptr())` and unwraps the status.  The first
component is the list of handles passed to `AMediaCodec_delete`. -/
def MediaCodec.drop (self : MediaCodec) (status : Int) :
    List Nat × Option Unit :=
  ([self.inner],
   match MediaError.from_status status with
   | .ok u => some u
   | .error _ => none)

/-- `MediaCodec::from_codec_name` (lines 227-232): `CString::new(name)`
is unwrapped (outer `none` models the panic on an interior NUL), then
`NonNull::new` on the pointer returned by `AMediaCodec_createCodecByName`
yields `None` exactly for a null pointer.  `nativePtr` is the oracle
pointer returned by the native create call. -/
def from_codec_name (name : List Nat) (nativePtr : Nat) :
    Option (Option MediaCodec) :=
  match CString.new name with
  | none => none
  | some _ =>
    some (if h : nativePtr = 0 then none else some ⟨nativePtr, h⟩)

/-- `MediaCodec::from_decoder_type` (lines 234-241): like
`from_codec_name`, wrapping `AMediaCodec_createDecoderByType`. -/
def from_decoder_type (mime_type : List Nat) (nativePtr : Nat) :
    Option (Option MediaCodec) :=
  match CString.new mime_type with
  | none => none
  | some _ =>
    some (if h : nativePtr = 0 then none else some ⟨nativePtr, h⟩)

/-- `MediaCodec::from_encoder_type` (lines 243-250): like
`from_codec_name`, wrapping `AMediaCodec_createEncoderByType`. -/
def from_encoder_type (mime_type : List Nat) (nativePtr : Nat) :
    Option (Option MediaCodec) :=
  match CString.new mime_type with
  | none => none
  | some _ =>
    some (if h : nativePtr = 0 then none else some ⟨nativePtr, h⟩)

/-- UTF-8 validation DFA, first byte of a sequence: the accepted lead bytes
and, for multi-byte sequences, the number of continuation bytes still
expected together with the allowed range of the next byte (RFC 3629: no
overlong forms, no surrogates, max `U+10FFFF`) — exactly the validity
notion of Rust `str::from_utf8` behind `CStr::to_str`. -/
def utf8Start (b : Nat) : Option (Nat × Nat × Nat) :=
  if b ≤ 0x7F then some (0, 0, 0)
  else if b < 0xC2 then none
  else if b ≤ 0xDF then some (1, 0x80, 0xBF)
  else if b = 0xE0 then some (2, 0xA0, 0xBF)
  else if b ≤ 0xEC then some (2, 0x80, 0xBF)
  else if b = 0xED then some (2, 0x80, 0x9F)
  else if b ≤ 0xEF then some (2, 0x80, 0xBF)
  else if b = 0xF0 then some (3, 0x90, 0xBF)
  else if b ≤ 0xF3 then some (3, 0x80, 0xBF)
  else if b = 0xF4 then some (3, 0x80, 0x8F)
  else none

/-- One step of the UTF-8 validation DFA: `none` is the sink failure state,
`some (0, _, _)` means "between sequences", `some (n+1, lo, hi)` means `n+1`
continuation bytes are still expected and the next one must lie in
`[lo, hi]`. -/
def utf8Step (state : Option (Nat × Nat × Nat)) (b : Nat) :
    Option (Nat × Nat × Nat) :=
  match state with
  | none => none
  | some (0, _, _) => utf8Start b
  | some (n + 1, lo, hi) =>
    if lo ≤ b ∧ b ≤ hi then some (n, 0x80, 0xBF) else none

/-- Whether a byte string is valid UTF-8, i.e. whether Rust
`str::from_utf8` (and hence `CStr::to_str`) succeeds on it. -/
def utf8Valid (bytes : List Nat) : Bool :=
  match bytes.foldl utf8Step (some (0, 0, 0)) with
  | some (0, _, _) => true
  | _ => false

/-- `MediaFormat::i32` (lines 56-64): `CString::new(key).unwrap()` (outer
`none` models the panic on an interior NUL), then `Some(out)` iff the
native `AMediaFormat_getInt32` returned `true`.  `present` and `out` are
the oracle outcome of the native getter. -/
def MediaFormat.i32 (key : List Nat) (present : Bool) (out : Int) :
    Option (Option Int) :=
  match CString.new key with
  | none => none
  | some _ => some (if present then some out else none)

/-- `MediaFormat::i64` (lines 66-74): same shape over
`AMediaFormat_getInt64`. -/
def MediaFormat.i64 (key : List Nat) (present : Bool) (out : Int) :
    Option (Option Int) :=
  match CString.new key with
  | none => none
  | some _ => some (if present then some out else none)

/-- `MediaFormat::f32` (lines 76-84): same shape over
`AMediaFormat_getFloat`; the `f32` value only flows through, so it is
carried as its opaque 32-bit pattern. -/
def MediaFormat.f32 (key : List Nat) (present : Bool) (out : Nat) :
    Option (Option Nat) :=
  match CString.new key with
  | none => none
  | some _ => some (if present then some out else none)

/-- `MediaFormat::usize` (lines 86-94): same shape over
`AMediaFormat_getSize`. -/
def MediaFormat.usize (key : List Nat) (present : Bool) (out : Nat) :
    Option (Option Nat) :=
  match CString.new key with
  | none => none
  | some _ => some (if present then some out else none)

/-- `MediaFormat::buffer` (lines 96-109): same shape over
`AMediaFormat_getBuffer`; on success the returned slice is the native
out-buffer's bytes, carried through unchanged. -/
def MediaFormat.buffer (key : List Nat) (present : Bool)
    (out : List Nat) : Option (Option (List Nat)) :=
  match CString.new key with
  | none => none
  | some _ => some (if present then some out else none)

/-- `MediaFormat::str` (lines 111-116): after the key NUL check and the
native `AMediaFormat_getString`, a present value additionally goes through
`CStr::from_ptr(out).to_str().unwrap()`, which panics (outer `none`) when
the native bytes are not valid UTF-8. -/
def MediaFormat.str (key : List Nat) (present : Bool) (out : List Nat) :
    Option (Option (List Nat)) :=
  match CString.new key with
  | none => none
  | some _ =>
    if present then
      if utf8Valid out then some (some out) else none
    else
      some none

/-- `MediaFormat::set_i32` (lines 118-121): key NUL panic, then the
key/value pair handed to `AMediaFormat_setInt32`. -/
def MediaFormat.set_i32 (key : List Nat) (value : Int) :
    Option (List Nat × Int) :=
  match CString.new key with
  | none => none
  | some k => some (k, value)

/-- `MediaFormat::set_i64` (lines 123-126): key NUL panic, then the
key/value pair handed to `AMediaFormat_setInt64`. -/
def MediaFormat.set_i64 (key : List Nat) (value : Int) :
    Option (List Nat × Int) :=
  match CString.new key with
  | none => none
  | some k => some (k, value)

/-- `MediaFormat::set_f32` (lines 128-131): key NUL panic, then the
key/value pair handed to `AMediaFormat_setFloat` (the `f32` as its opaque
bit pattern). -/
def MediaFormat.set_f32 (key : List Nat) (value : Nat) :
    Option (List Nat × Nat) :=
  match CString.new key with
  | none => none
  | some k => some (k, value)

/-- `MediaFormat::set_str` (lines 133-137): both the key and the value go
through `CString::new(..).unwrap()`, so an interior NUL in either panics;
otherwise both are handed to `AMediaFormat_setString`. -/
def MediaFormat.set_str (key : List Nat) (value : List Nat) :
    Option (List Nat × List Nat) :=
  match CString.new key with
  | none => none
  | some k =>
    match CString.new value with
    | none => none
    | some v => some (k, v)

/-- `MediaFormat::set_buffer` (lines 139-149): key NUL panic, then the key
and the byte slice (pointer and length, i.e. the bytes) handed to
`AMediaFormat_setBuffer`. -/
def MediaFormat.set_buffer (key : List Nat) (value : List Nat) :
    Option (List Nat × List Nat) :=
  match CString.new key with
  | none => none
  | some k => some (k, value)

/-! Theorems. -/

/-- A 64-bit value already in `i32` range is unchanged by the truncating
cast. -/
lemma wrap32_eq_self (r : Int) (h1 : -(2 ^ 31) ≤ r) (h2 : r < 2 ^ 31) :
    wrap32 r = r := by
  have e31 : (2 : Int) ^ 31 = 2147483648 := by norm_num
  have e32 : (2 : Int) ^ 32 = 4294967296 := by norm_num
  unfold wrap32
  rw [e31, e32]
  rw [e31] at h1 h2
  omega

/-- Claim C2 (amended): for every native `ssize_t` return value,
`dequeue_input_buffer` yields `Ok(TryAgainLater)` exactly on the
`AMEDIACODEC_INFO_TRY_AGAIN_LATER` sentinel, `Ok(Buffer)` with index equal
to the value for every non-negative value, and for every other negative
value truncates it to the 32-bit status type: `Err` carrying that truncated
status when it is nonzero (equal to the original value whenever the value is
at least `-2^31`), and a panic (`none`) when the truncation is zero, i.e. at
negative multiples of `2^32`. -/
theorem dequeue_input_result_translation (result : Int)
    (hlo : isizeMin ≤ result) (hhi : result < isizeTop) :
    (result = AMEDIACODEC_INFO_TRY_AGAIN_LATER →
      dequeue_input_translate result =
        some (.ok .TryAgainLater)) ∧
    (0 ≤ result →
      dequeue_input_translate result =
        some (.ok (.Buffer ⟨result.toNat⟩)) ∧
      (result.toNat : Int) = result) ∧
    (result < 0 → result ≠ AMEDIACODEC_INFO_TRY_AGAIN_LATER →
      wrap32 result ≠ 0 →
      dequeue_input_translate result = some (.error (wrap32 result))) ∧
    (-(2 ^ 31) ≤ result → result < 0 →
      result ≠ AMEDIACODEC_INFO_TRY_AGAIN_LATER →
      dequeue_input_translate result = some (.error result)) ∧
    (result < 0 → wrap32 result = 0 →
      dequeue_input_translate result = none) := by
  refine ⟨?_, ?_, ?_, ?_, ?_⟩
  · intro h
    subst h
    rfl
  · intro h
    have hne : result ≠ AMEDIACODEC_INFO_TRY_AGAIN_LATER := by
      simp only [AMEDIACODEC_INFO_TRY_AGAIN_LATER]; omega
    refine ⟨?_, by omega⟩
    simp [dequeue_input_translate, hne, h]
  · intro h1 h2 h3
    have hnn : ¬ (0 : Int) ≤ result := by omega
    simp only [dequeue_input_translate, unwrapErr, MediaError.from_status,
      if_neg h2, if_neg hnn, if_neg h3]
  · intro h0 h1 h2
    have hw : wrap32 result = result :=
      wrap32_eq_self result h0 (by omega)
    have hz : wrap32 result ≠ 0 := by omega
    have hz0 : result ≠ 0 := by omega
    have hnn : ¬ (0 : Int) ≤ result := by omega
    simp only [dequeue_input_translate, unwrapErr, MediaError.from_status,
      if_neg h2, if_neg hnn, if_neg hz, hw, if_neg hz0]
  · intro h1 h2
    have hne : result ≠ AMEDIACODEC_INFO_TRY_AGAIN_LATER := by
      intro he
      rw [he] at h2
      revert h2
      decide
    have hnn : ¬ (0 : Int) ≤ result := by omega
    simp only [dequeue_input_translate, unwrapErr, MediaError.from_status,
      if_neg hne, if_neg hnn, h2]
    simp

/-- Witness for `dequeue_input_result_translation` at the concrete inputs
`5` (a slot index), `-1` (the retry sentinel) and `-10000` (a fatal status
code). -/
theorem dequeue_input_result_translation_witness :
    dequeue_input_translate 5 =
      some (.ok (.Buffer ⟨(5 : Int).toNat⟩)) ∧
    dequeue_input_translate (-1) = some (.ok .TryAgainLater) ∧
    dequeue_input_translate (-10000) = some (.error (-10000)) :=
  ⟨((dequeue_input_result_translation 5 (by decide) (by decide)).2.1
      (by decide)).1,
   (dequeue_input_result_translation (-1) (by decide) (by decide)).1 rfl,
   (dequeue_input_result_translation (-10000) (by decide)
      (by decide)).2.2.2.1 (by decide) (by decide) (by decide)⟩

/-- Counterexample to claim C2 as stated: `-2^32` is a negative `ssize_t`
value distinct from the retry sentinel, yet `dequeue_input_buffer` does not
return an `Err` there — its 32-bit truncation is the success status, so the
`unwrap_err` in the error path panics (`none`). -/
theorem dequeue_input_panic_on_truncated_ok :
    (-(2 ^ 32) : Int) < 0 ∧
    (-(2 ^ 32) : Int) ≠ AMEDIACODEC_INFO_TRY_AGAIN_LATER ∧
    dequeue_input_translate (-(2 ^ 32)) = none := by
  decide

/-- Claim C1 (amended): for every native `ssize_t` return value,
`dequeue_output_buffer` yields the three distinct `Ok` variants
`TryAgainLater`, `OutputFormatChanged` and `OutputBuffersChanged` exactly on
the three sentinels (none of them as an error), `Ok(Buffer)` carrying index
equal to the value and the native buffer info for every non-negative value,
and for every other negative value truncates it to the 32-bit status type:
`Err` carrying that truncated status when it is nonzero (equal to the
original value whenever the value is at least `-2^31`), and a panic
(`none`) when the truncation is zero. -/
theorem dequeue_output_result_translation (result : Int)
    (info : AMediaCodecBufferInfo)
    (hlo : isizeMin ≤ result) (hhi : result < isizeTop) :
    (result = AMEDIACODEC_INFO_TRY_AGAIN_LATER →
      dequeue_output_translate result info =
        some (.ok .TryAgainLater)) ∧
    (result = AMEDIACODEC_INFO_OUTPUT_FORMAT_CHANGED →
      dequeue_output_translate result info =
        some (.ok .OutputFormatChanged)) ∧
    (result = AMEDIACODEC_INFO_OUTPUT_BUFFERS_CHANGED →
      dequeue_output_translate result info =
        some (.ok .OutputBuffersChanged)) ∧
    (0 ≤ result →
      dequeue_output_translate result info =
        some (.ok (.Buffer ⟨result.toNat, info⟩)) ∧
      (result.toNat : Int) = result) ∧
    (result < 0 → result ≠ AMEDIACODEC_INFO_TRY_AGAIN_LATER →
      result ≠ AMEDIACODEC_INFO_OUTPUT_FORMAT_CHANGED →
      result ≠ AMEDIACODEC_INFO_OUTPUT_BUFFERS_CHANGED →
      wrap32 result ≠ 0 →
      dequeue_output_translate result info =
        some (.error (wrap32 result))) ∧
    (-(2 ^ 31) ≤ result → result < 0 →
      result ≠ AMEDIACODEC_INFO_TRY_AGAIN_LATER →
      result ≠ AMEDIACODEC_INFO_OUTPUT_FORMAT_CHANGED →
      result ≠ AMEDIACODEC_INFO_OUTPUT_BUFFERS_CHANGED →
      dequeue_output_translate result info = some (.error result)) ∧
    (result < 0 → wrap32 result = 0 →
      dequeue_output_translate result info = none) := by
  refine ⟨?_, ?_, ?_, ?_, ?_, ?_, ?_⟩
  · intro h
    subst h
    rfl
  · intro h
    subst h
    rfl
  · intro h
    subst h
    rfl
  · intro h
    have h1 : result ≠ AMEDIACODEC_INFO_TRY_AGAIN_LATER := by
      simp only [AMEDIACODEC_INFO_TRY_AGAIN_LATER]; omega
    have h2 : result ≠ AMEDIACODEC_INFO_OUTPUT_FORMAT_CHANGED := by
      simp only [AMEDIACODEC_INFO_OUTPUT_FORMAT_CHANGED]; omega
    have h3 : result ≠ AMEDIACODEC_INFO_OUTPUT_BUFFERS_CHANGED := by
      simp only [AMEDIACODEC_INFO_OUTPUT_BUFFERS_CHANGED]; omega
    refine ⟨?_, by omega⟩
    simp [dequeue_output_translate, h1, h2, h3, h]
  · intro h0 h1 h2 h3 h4
    have hnn : ¬ (0 : Int) ≤ result := by omega
    simp only [dequeue_output_translate, unwrapErr, MediaError.from_status,
      if_neg h1, if_neg h2, if_neg h3, if_neg hnn, if_neg h4]
  · intro h0 hn h1 h2 h3
    have hw : wrap32 result = result :=
      wrap32_eq_self result h0 (by omega)
    have h4 : wrap32 result ≠ 0 := by omega
    have hz0 : result ≠ 0 := by omega
    have hnn : ¬ (0 : Int) ≤ result := by omega
    simp only [dequeue_output_translate, unwrapErr, MediaError.from_status,
      if_neg h1, if_neg h2, if_neg h3, if_neg hnn, if_neg h4, hw,
      if_neg hz0]
  · intro h1 h2
    have hn1 : result ≠ AMEDIACODEC_INFO_TRY_AGAIN_LATER := by
      intro he; rw [he] at h2; revert h2; decide
    have hn2 : result ≠ AMEDIACODEC_INFO_OUTPUT_FORMAT_CHANGED := by
      intro he; rw [he] at h2; revert h2; decide
    have hn3 : result ≠ AMEDIACODEC_INFO_OUTPUT_BUFFERS_CHANGED := by
      intro he; rw [he] at h2; revert h2; decide
    have hnn : ¬ (0 : Int) ≤ result := by omega
    simp only [dequeue_output_translate, unwrapErr, MediaError.from_status,
      if_neg hn1, if_neg hn2, if_neg hn3, if_neg hnn, h2]
    simp

/-- Witness for `dequeue_output_result_translation` at the concrete inputs
`7` (a slot index with a concrete buffer info), the three sentinels, and
`-10000` (a fatal status code). -/
theorem dequeue_output_result_translation_witness :
    dequeue_output_translate 7 ⟨0, 16, 4, 33⟩ =
      some (.ok (.Buffer ⟨(7 : Int).toNat, ⟨0, 16, 4, 33⟩⟩)) ∧
    dequeue_output_translate (-1) ⟨0, 0, 0, 0⟩ =
      some (.ok .TryAgainLater) ∧
    dequeue_output_translate (-2) ⟨0, 0, 0, 0⟩ =
      some (.ok .OutputFormatChanged) ∧
    dequeue_output_translate (-3) ⟨0, 0, 0, 0⟩ =
      some (.ok .OutputBuffersChanged) ∧
    dequeue_output_translate (-10000) ⟨0, 0, 0, 0⟩ =
      some (.error (-10000)) :=
  ⟨((dequeue_output_result_translation 7 ⟨0, 16, 4, 33⟩ (by decide)
      (by decide)).2.2.2.1 (by decide)).1,
   (dequeue_output_result_translation (-1) ⟨0, 0, 0, 0⟩ (by decide)
      (by decide)).1 rfl,
   (dequeue_output_result_translation (-2) ⟨0, 0, 0, 0⟩ (by decide)
      (by decide)).2.1 rfl,
   (dequeue_output_result_translation (-3) ⟨0, 0, 0, 0⟩ (by decide)
      (by decide)).2.2.1 rfl,
   (dequeue_output_result_translation (-10000) ⟨0, 0, 0, 0⟩ (by decide)
      (by decide)).2.2.2.2.2.1 (by decide) (by decide) (by decide)
      (by decide) (by decide)⟩

/-- Counterexample to claim C1 as stated: `-2^32` is a negative `ssize_t`
value distinct from all three sentinels, yet `dequeue_output_buffer` does
not return an `Err` there — its 32-bit truncation is the success status, so
the `unwrap_err` in the error path panics (`none`). -/
theorem dequeue_output_panic_on_truncated_ok :
    (-(2 ^ 32) : Int) < 0 ∧
    (-(2 ^ 32) : Int) ≠ AMEDIACODEC_INFO_TRY_AGAIN_LATER ∧
    (-(2 ^ 32) : Int) ≠ AMEDIACODEC_INFO_OUTPUT_FORMAT_CHANGED ∧
    (-(2 ^ 32) : Int) ≠ AMEDIACODEC_INFO_OUTPUT_BUFFERS_CHANGED ∧
    dequeue_output_translate (-(2 ^ 32)) ⟨0, 0, 0, 0⟩ = none := by
  decide

/-- Claim C3: both `dequeue_input_buffer` and `dequeue_output_buffer` pass
the supplied timeout to the native call as its whole number of microseconds
(`Duration::as_micros`), for every timeout whose microsecond count fits the
native `i64` timeout type; the translation of the native result then
proceeds on the value the native call returned for exactly that timeout
argument. -/
theorem dequeue_timeout_passed_as_micros (timeout : Duration)
    (h : (timeout.as_micros : Int) ≤ i64Max)
    (nativeIn : Int → Int)
    (nativeOut : Int → Int × AMediaCodecBufferInfo) :
    dequeue_input_buffer timeout nativeIn =
      .ok ((timeout.as_micros : Int),
        dequeue_input_translate (nativeIn (timeout.as_micros : Int))) ∧
    dequeue_output_buffer timeout nativeOut =
      .ok ((timeout.as_micros : Int),
        dequeue_output_translate
          (nativeOut (timeout.as_micros : Int)).1
          (nativeOut (timeout.as_micros : Int)).2) := by
  unfold dequeue_input_buffer dequeue_output_buffer timeout_arg
  rw [if_pos h]
  exact ⟨rfl, rfl⟩

/-- Witness for `dequeue_timeout_passed_as_micros`: a one-second timeout is
passed as `1000000` microseconds to both dequeue calls. -/
theorem dequeue_timeout_passed_as_micros_witness :
    dequeue_input_buffer ⟨1, 0, by decide, by decide⟩ (fun _ => -1) =
      .ok (1000000, dequeue_input_translate (-1)) ∧
    dequeue_output_buffer ⟨1, 0, by decide, by decide⟩
        (fun _ => (-1, ⟨0, 0, 0, 0⟩)) =
      .ok (1000000, dequeue_output_translate (-1) ⟨0, 0, 0, 0⟩) := by
  exact dequeue_timeout_passed_as_micros ⟨1, 0, by decide, by decide⟩
    (by decide) (fun _ => -1) (fun _ => (-1, ⟨0, 0, 0, 0⟩))

/-- Claim C10: for every timeout whose whole-microsecond count exceeds
`i64::MAX`, both dequeue functions panic with the message "Supplied timeout
is too large" instead of returning an `Err`; the result is this panic for
every native oracle, i.e. independent of any native call. -/
theorem dequeue_timeout_too_large_panics (timeout : Duration)
    (h : i64Max < (timeout.as_micros : Int))
    (nativeIn : Int → Int)
    (nativeOut : Int → Int × AMediaCodecBufferInfo) :
    dequeue_input_buffer timeout nativeIn =
      .error "Supplied timeout is too large" ∧
    dequeue_output_buffer timeout nativeOut =
      .error "Supplied timeout is too large" := by
  have hn : ¬ (timeout.as_micros : Int) ≤ i64Max := by omega
  unfold dequeue_input_buffer dequeue_output_buffer timeout_arg
  rw [if_neg hn]
  exact ⟨rfl, rfl⟩

/-- Witness for `dequeue_timeout_too_large_panics`: a `2^63`-second timeout
has `2^63 * 10^6 > i64::MAX` whole microseconds, so both dequeue functions
panic before any native call. -/
theorem dequeue_timeout_too_large_panics_witness :
    dequeue_input_buffer ⟨2 ^ 63, 0, by norm_num, by norm_num⟩
        (fun _ => 0) =
      .error "Supplied timeout is too large" ∧
    dequeue_output_buffer ⟨2 ^ 63, 0, by norm_num, by norm_num⟩
        (fun _ => (0, ⟨0, 0, 0, 0⟩)) =
      .error "Supplied timeout is too large" := by
  exact dequeue_timeout_too_large_panics ⟨2 ^ 63, 0, by norm_num, by norm_num⟩
    (by norm_num [Duration.as_micros, i64Max]) (fun _ => 0)
    (fun _ => (0, ⟨0, 0, 0, 0⟩))

/-- Claim C4: `configure` passes the `AMEDIACODEC_CONFIGURE_FLAG_ENCODE`
flag exactly when the direction is `Encoder` and `0` when it is `Decoder`,
passes a null surface pointer exactly when no surface is given and the
given window's pointer otherwise, and returns `Ok(())` iff the native
status is success, `Err` with that status otherwise. -/
theorem configure_flags_surface_status (self : MediaCodec)
    (format : MediaFormat) (surface : Option NativeWindow)
    (direction : MediaCodecDirection) (status : Int) :
    ((configure self format surface direction status).1.flags =
        AMEDIACODEC_CONFIGURE_FLAG_ENCODE ↔
      direction = MediaCodecDirection.Encoder) ∧
    ((configure self format surface direction status).1.flags = 0 ↔
      direction = MediaCodecDirection.Decoder) ∧
    ((configure self format surface direction status).1.surface = 0 ↔
      surface = none) ∧
    (∀ w : NativeWindow, surface = some w →
      (configure self format surface direction status).1.surface = w.ptr) ∧
    ((configure self format surface direction status).2 = .ok () ↔
      status = 0) ∧
    (status ≠ 0 →
      (configure self format surface direction status).2 =
        .error status) := by
  refine ⟨?_, ?_, ?_, ?_, ?_, ?_⟩
  · cases direction <;>
      simp [configure, AMEDIACODEC_CONFIGURE_FLAG_ENCODE]
  · cases direction <;>
      simp [configure, AMEDIACODEC_CONFIGURE_FLAG_ENCODE]
  · cases surface with
    | none => simp [configure]
    | some w => simp [configure, w.ptr_ne]
  · intro w hw
    subst hw
    simp [configure]
  · by_cases hz : status = 0 <;>
      simp [configure, MediaError.from_status, hz]
  · intro hz
    simp [configure, MediaError.from_status, if_neg hz]

/-- Witness for `configure_flags_surface_status` at concrete inputs: an
encoder configuration with no surface and status `0`, whose flag argument
is the encode flag, surface argument null and result `Ok`. -/
theorem configure_flags_surface_status_witness :
    (configure ⟨1, by decide⟩ ⟨2, by decide⟩ none
        MediaCodecDirection.Encoder 0).1.flags =
      AMEDIACODEC_CONFIGURE_FLAG_ENCODE ∧
    (configure ⟨1, by decide⟩ ⟨2, by decide⟩ none
        MediaCodecDirection.Encoder 0).1.surface = 0 ∧
    (configure ⟨1, by decide⟩ ⟨2, by decide⟩ none
        MediaCodecDirection.Encoder 0).2 = .ok () :=
  ⟨(configure_flags_surface_status ⟨1, by decide⟩ ⟨2, by decide⟩ none
      MediaCodecDirection.Encoder 0).1.mpr rfl,
   (configure_flags_surface_status ⟨1, by decide⟩ ⟨2, by decide⟩ none
      MediaCodecDirection.Encoder 0).2.2.1.mpr rfl,
   (configure_flags_surface_status ⟨1, by decide⟩ ⟨2, by decide⟩ none
      MediaCodecDirection.Encoder 0).2.2.2.2.1.mpr rfl⟩

/-- Claim C5: `release_output_buffer` passes the consumed buffer's index
and the caller's `render` boolean to the native release call, and
`release_output_buffer_at_time` passes the buffer's index and the caller's
nanosecond timestamp; each returns `Ok(())` iff the native status is
success and `Err` with the status otherwise.  (Consumption itself is the
Rust signature taking the `OutputBuffer` by value.) -/
theorem release_output_buffer_forwards (buffer : OutputBuffer)
    (render : Bool) (timestamp_ns : Int) (status : Int) :
    (release_output_buffer buffer render status).1 =
      (buffer.index, render) ∧
    ((release_output_buffer buffer render status).2 = .ok () ↔
      status = 0) ∧
    (status ≠ 0 →
      (release_output_buffer buffer render status).2 = .error status) ∧
    (release_output_buffer_at_time buffer timestamp_ns status).1 =
      (buffer.index, timestamp_ns) ∧
    ((release_output_buffer_at_time buffer timestamp_ns status).2 =
        .ok () ↔ status = 0) ∧
    (status ≠ 0 →
      (release_output_buffer_at_time buffer timestamp_ns status).2 =
        .error status) := by
  refine ⟨rfl, ?_, ?_, rfl, ?_, ?_⟩
  · by_cases hz : status = 0 <;>
      simp [release_output_buffer, MediaError.from_status, hz]
  · intro hz
    simp [release_output_buffer, MediaError.from_status, if_neg hz]
  · by_cases hz : status = 0 <;>
      simp [release_output_buffer_at_time, MediaError.from_status, hz]
  · intro hz
    simp [release_output_buffer_at_time, MediaError.from_status,
      if_neg hz]

/-- Witness for `release_output_buffer_forwards` at a concrete buffer,
`render = true`, timestamp `42` and a failing status `-10000`. -/
theorem release_output_buffer_forwards_witness :
    (release_output_buffer ⟨3, ⟨0, 0, 0, 0⟩⟩ true (-10000)).1 =
      (3, true) ∧
    (release_output_buffer ⟨3, ⟨0, 0, 0, 0⟩⟩ true (-10000)).2 =
      .error (-10000) ∧
    (release_output_buffer_at_time ⟨3, ⟨0, 0, 0, 0⟩⟩ 42 (-10000)).1 =
      (3, 42) :=
  ⟨(release_output_buffer_forwards ⟨3, ⟨0, 0, 0, 0⟩⟩ true 42 (-10000)).1,
   (release_output_buffer_forwards ⟨3, ⟨0, 0, 0, 0⟩⟩ true 42
      (-10000)).2.2.1 (by decide),
   (release_output_buffer_forwards ⟨3, ⟨0, 0, 0, 0⟩⟩ true 42
      (-10000)).2.2.2.1⟩

/-- Claim C6 (amended): `start`, `stop`, `flush` and `queue_input_buffer`
return exactly the translation of the foreign status code — `Ok(())` on
success, `Err` carrying the status otherwise — and nothing else;
`queue_input_buffer` forwards the dequeued buffer's index and the caller's
size, time and flags unchanged, and the offset converted by the
`usize`-to-`off_t` cast, which leaves it unchanged exactly when it is below
`2^63`. -/
theorem queue_and_control_status_translation (buffer : InputBuffer)
    (offset size time flags : Nat) (status : Int)
    (_hoff : offset < 2 ^ 64) :
    (queue_input_buffer buffer offset size time flags status).1.idx =
      buffer.index ∧
    (queue_input_buffer buffer offset size time flags status).1.size =
      size ∧
    (queue_input_buffer buffer offset size time flags status).1.time =
      time ∧
    (queue_input_buffer buffer offset size time flags status).1.flags =
      flags ∧
    (queue_input_buffer buffer offset size time flags status).1.offset =
      asInt64 offset ∧
    (offset < 2 ^ 63 →
      (queue_input_buffer buffer offset size time flags status).1.offset =
        (offset : Int)) ∧
    (queue_input_buffer buffer offset size time flags status).2 =
      MediaError.from_status status ∧
    ((queue_input_buffer buffer offset size time flags status).2 =
        .ok () ↔ status = 0) ∧
    (status ≠ 0 →
      (queue_input_buffer buffer offset size time flags status).2 =
        .error status) ∧
    (start status = MediaError.from_status status) ∧
    ((start status = .ok () ↔ status = 0) ∧
      (status ≠ 0 → start status = .error status)) ∧
    (stop status = MediaError.from_status status) ∧
    ((stop status = .ok () ↔ status = 0) ∧
      (status ≠ 0 → stop status = .error status)) ∧
    (flush status = MediaError.from_status status) ∧
    ((flush status = .ok () ↔ status = 0) ∧
      (status ≠ 0 → flush status = .error status)) := by
  refine ⟨rfl, rfl, rfl, rfl, rfl, ?_, rfl, ?_, ?_, rfl, ⟨?_, ?_⟩, rfl,
    ⟨?_, ?_⟩, rfl, ⟨?_, ?_⟩⟩
  · intro h
    show asInt64 offset = (offset : Int)
    unfold asInt64
    rw [if_pos h]
  · by_cases hz : status = 0 <;>
      simp [queue_input_buffer, MediaError.from_status, hz]
  · intro hz
    simp [queue_input_buffer, MediaError.from_status, if_neg hz]
  · by_cases hz : status = 0 <;>
      simp [start, MediaError.from_status, hz]
  · intro hz
    simp [start, MediaError.from_status, if_neg hz]
  · by_cases hz : status = 0 <;>
      simp [stop, MediaError.from_status, hz]
  · intro hz
    simp [stop, MediaError.from_status, if_neg hz]
  · by_cases hz : status = 0 <;>
      simp [flush, MediaError.from_status, hz]
  · intro hz
    simp [flush, MediaError.from_status, if_neg hz]

/-- Witness for `queue_and_control_status_translation` at slot `2`,
offset `8`, size `100`, time `33`, flags `4` and a failing status
`-10000`. -/
theorem queue_and_control_status_translation_witness :
    (queue_input_buffer ⟨2⟩ 8 100 33 4 (-10000)).1.idx = 2 ∧
    (queue_input_buffer ⟨2⟩ 8 100 33 4 (-10000)).1.offset = (8 : Int) ∧
    (queue_input_buffer ⟨2⟩ 8 100 33 4 (-10000)).2 =
      .error (-10000) ∧
    start 0 = .ok () ∧
    flush (-10000) = .error (-10000) :=
  ⟨(queue_and_control_status_translation ⟨2⟩ 8 100 33 4 (-10000)
      (by norm_num)).1,
   (queue_and_control_status_translation ⟨2⟩ 8 100 33 4 (-10000)
      (by norm_num)).2.2.2.2.2.1 (by norm_num),
   (queue_and_control_status_translation ⟨2⟩ 8 100 33 4 (-10000)
      (by norm_num)).2.2.2.2.2.2.2.2.1 (by decide),
   (queue_and_control_status_translation ⟨2⟩ 8 100 33 4 0
      (by norm_num)).2.2.2.2.2.2.2.2.2.2.1.1.mpr rfl,
   (queue_and_control_status_translation ⟨2⟩ 8 100 33 4 (-10000)
      (by norm_num)).2.2.2.2.2.2.2.2.2.2.2.2.2.2.2 (by decide)⟩

/-- Counterexample to claim C6 as stated: at `offset = 2^63` the
`offset as ffi::off_t` cast changes the value — the native call receives
`-2^63`, not `2^63`, so the offset is not forwarded unchanged. -/
theorem queue_input_buffer_offset_wraps :
    (queue_input_buffer ⟨0⟩ (2 ^ 63) 0 0 0 0).1.offset = -(2 ^ 63) ∧
    (queue_input_buffer ⟨0⟩ (2 ^ 63) 0 0 0 0).1.offset ≠
      ((2 ^ 63 : Nat) : Int) := by
  constructor
  · show asInt64 (2 ^ 63) = -(2 ^ 63)
    norm_num [asInt64]
  · show asInt64 (2 ^ 63) ≠ ((2 ^ 63 : Nat) : Int)
    norm_num [asInt64]

/-- Claim C7: each codec constructor — `from_codec_name`,
`from_decoder_type`, `from_encoder_type` — returns `Some(MediaCodec)`
holding the native handle exactly when the native create call returns a
non-null pointer, and `None` exactly when it returns null (for any NUL-free
name or MIME type, so that the `CString` conversion does not panic). -/
theorem codec_constructors_null_check (name mime_type : List Nat)
    (nativePtr : Nat) (hname : name.contains 0 = false)
    (hmime : mime_type.contains 0 = false) :
    (nativePtr = 0 → from_codec_name name nativePtr = some none) ∧
    (∀ h : ¬ nativePtr = 0,
      from_codec_name name nativePtr = some (some ⟨nativePtr, h⟩)) ∧
    (nativePtr = 0 → from_decoder_type mime_type nativePtr = some none) ∧
    (∀ h : ¬ nativePtr = 0,
      from_decoder_type mime_type nativePtr = some (some ⟨nativePtr, h⟩)) ∧
    (nativePtr = 0 → from_encoder_type mime_type nativePtr = some none) ∧
    (∀ h : ¬ nativePtr = 0,
      from_encoder_type mime_type nativePtr =
        some (some ⟨nativePtr, h⟩)) := by
  have hn : (0 : Nat) ∉ name := by simpa using hname
  have hm : (0 : Nat) ∉ mime_type := by simpa using hmime
  refine ⟨?_, ?_, ?_, ?_, ?_, ?_⟩ <;> intro h <;>
    simp [from_codec_name, from_decoder_type, from_encoder_type,
      CString.new, hn, hm, h]

/-- Witness for `codec_constructors_null_check` at the NUL-free name
`"a"` (byte `97`): a null create result gives `None`, a non-null handle
`1` gives `Some`. -/
theorem codec_constructors_null_check_witness :
    from_codec_name [97] 0 = some none ∧
    from_codec_name [97] 1 = some (some ⟨1, by decide⟩) ∧
    from_decoder_type [97] 1 = some (some ⟨1, by decide⟩) ∧
    from_encoder_type [97] 0 = some none :=
  ⟨(codec_constructors_null_check [97] [97] 0 rfl rfl).1 rfl,
   (codec_constructors_null_check [97] [97] 1 rfl rfl).2.1 (by decide),
   (codec_constructors_null_check [97] [97] 1 rfl rfl).2.2.2.1
     (by decide),
   (codec_constructors_null_check [97] [97] 0 rfl rfl).2.2.2.2.1 rfl⟩

/-- Claim C8: dropping a `MediaFormat` calls `AMediaFormat_delete` exactly
once on the owned handle, and dropping a `MediaCodec` calls
`AMediaCodec_delete` exactly once on the owned handle — the recorded call
list of each drop is exactly the one-element list holding the owned
handle, for every native status. -/
theorem drop_deletes_handle_once (format : MediaFormat)
    (codec : MediaCodec) (s1 s2 : Int) :
    (MediaFormat.drop format s1).1 = [format.inner] ∧
    (MediaFormat.drop format s1).1.length = 1 ∧
    (MediaCodec.drop codec s2).1 = [codec.inner] ∧
    (MediaCodec.drop codec s2).1.length = 1 :=
  ⟨rfl, rfl, rfl, rfl⟩

/-- Claim C9 (amended): every listed `MediaFormat` getter and setter and
every codec constructor taking a string panics (`none`) when the supplied
key, value string, name or MIME type contains an interior NUL byte; for
NUL-free strings each getter returns `Some(value)` exactly when the native
getter reports the key present and `None` otherwise — except that the `str`
getter additionally panics when the present native string is not valid
UTF-8, and returns `Some` only for valid UTF-8 values. -/
theorem media_format_accessors_nul_and_presence (key value out : List Nat)
    (present : Bool) (vi : Int) (vn : Nat) (nativePtr : Nat) :
    (key.contains 0 = true →
      MediaFormat.i32 key present vi = none ∧
      MediaFormat.i64 key present vi = none ∧
      MediaFormat.f32 key present vn = none ∧
      MediaFormat.usize key present vn = none ∧
      MediaFormat.buffer key present out = none ∧
      MediaFormat.str key present out = none ∧
      MediaFormat.set_i32 key vi = none ∧
      MediaFormat.set_i64 key vi = none ∧
      MediaFormat.set_f32 key vn = none ∧
      MediaFormat.set_str key value = none ∧
      MediaFormat.set_buffer key value = none ∧
      from_codec_name key nativePtr = none ∧
      from_decoder_type key nativePtr = none ∧
      from_encoder_type key nativePtr = none) ∧
    (key.contains 0 = false →
      MediaFormat.i32 key present vi =
        some (if present then some vi else none) ∧
      MediaFormat.i64 key present vi =
        some (if present then some vi else none) ∧
      MediaFormat.f32 key present vn =
        some (if present then some vn else none) ∧
      MediaFormat.usize key present vn =
        some (if present then some vn else none) ∧
      MediaFormat.buffer key present out =
        some (if present then some out else none) ∧
      (utf8Valid out = true →
        MediaFormat.str key present out =
          some (if present then some out else none)) ∧
      (present = true → utf8Valid out = false →
        MediaFormat.str key present out = none) ∧
      MediaFormat.set_i32 key vi = some (key, vi) ∧
      MediaFormat.set_i64 key vi = some (key, vi) ∧
      MediaFormat.set_f32 key vn = some (key, vn) ∧
      MediaFormat.set_buffer key value = some (key, value) ∧
      (value.contains 0 = false →
        MediaFormat.set_str key value = some (key, value)) ∧
      (value.contains 0 = true →
        MediaFormat.set_str key value = none)) := by
  constructor
  · intro hk
    have hk0 : (0 : Nat) ∈ key := by simpa using hk
    refine ⟨?_, ?_, ?_, ?_, ?_, ?_, ?_, ?_, ?_, ?_, ?_, ?_, ?_, ?_⟩ <;>
      simp [MediaFormat.i32, MediaFormat.i64, MediaFormat.f32,
        MediaFormat.usize, MediaFormat.buffer, MediaFormat.str,
        MediaFormat.set_i32, MediaFormat.set_i64, MediaFormat.set_f32,
        MediaFormat.set_str, MediaFormat.set_buffer, from_codec_name,
        from_decoder_type, from_encoder_type, CString.new, hk0]
  · intro hk
    have hk' : (0 : Nat) ∉ key := by simpa using hk
    refine ⟨?_, ?_, ?_, ?_, ?_, ?_, ?_, ?_, ?_, ?_, ?_, ?_, ?_⟩
    · simp [MediaFormat.i32, CString.new, hk']
    · simp [MediaFormat.i64, CString.new, hk']
    · simp [MediaFormat.f32, CString.new, hk']
    · simp [MediaFormat.usize, CString.new, hk']
    · simp [MediaFormat.buffer, CString.new, hk']
    · intro hu
      cases present <;>
        simp [MediaFormat.str, CString.new, hk', hu]
    · intro hp hu
      subst hp
      simp [MediaFormat.str, CString.new, hk', hu]
    · simp [MediaFormat.set_i32, CString.new, hk']
    · simp [MediaFormat.set_i64, CString.new, hk']
    · simp [MediaFormat.set_f32, CString.new, hk']
    · simp [MediaFormat.set_buffer, CString.new, hk']
    · intro hv
      have hv' : (0 : Nat) ∉ value := by simpa using hv
      simp [MediaFormat.set_str, CString.new, hk', hv']
    · intro hv
      have hv' : (0 : Nat) ∈ value := by simpa using hv
      simp [MediaFormat.set_str, CString.new, hk', hv']

/-- Witness for `media_format_accessors_nul_and_presence` at the NUL-free
key `"a"` (byte `97`): the present `i32` getter yields the value, the
absent one `None`; a key with an interior NUL (`[97, 0, 98]`) panics the
`i32` getter and `from_codec_name`. -/
theorem media_format_accessors_nul_and_presence_witness :
    MediaFormat.i32 [97] true 7 = some (some 7) ∧
    MediaFormat.i32 [97] false 7 = some none ∧
    MediaFormat.i32 [97, 0, 98] true 7 = none ∧
    from_codec_name [97, 0, 98] 1 = none := by
  refine ⟨?_, ?_, ?_, ?_⟩
  · exact ((media_format_accessors_nul_and_presence [97] [] [] true 7 0
      1).2 rfl).1
  · exact ((media_format_accessors_nul_and_presence [97] [] [] false 7 0
      1).2 rfl).1
  · exact ((media_format_accessors_nul_and_presence [97, 0, 98] [] []
      true 7 0 1).1 rfl).1
  · exact ((media_format_accessors_nul_and_presence [97, 0, 98] [] []
      true 7 0 1).1 rfl).2.2.2.2.2.2.2.2.2.2.2.1

/-- Counterexample to claim C9 as stated: with the NUL-free key `"a"` and
the key reported present, the `str` getter does not return `Some(value)`
when the native string is the invalid UTF-8 byte `0xFF` — the
`CStr::to_str().unwrap()` panics instead (`none`). -/
theorem media_format_str_panics_on_invalid_utf8 :
    List.contains [97] 0 = false ∧
    MediaFormat.str [97] true [255] = none := by
  decide

end MediaCodecSpec
